import Mathlib

/-!
Verification development for the building-locator core module
(`buildings/getSize.py`).  The module's data flow is shallowly embedded:

* machine floats are idealised as rationals (`ℚ`); Python's `round(x, 2)`
  becomes round-half-even on `100 * x`;
* the upstream Overpass service is a parameter (`behavior`) mapping an
  endpoint URL to the outcome of one query attempt;
* the on-disk pickle cache is an explicit `FileSystem` value threaded
  through `get_buildings_by_size`;
* the module-level dictionaries `endpoint_status` / `endpoint_last_used`
  become the fields of an explicit `Registry` value;
* geometric reprojection (`to_crs`, `.area`, `.centroid`) is external
  library work: a `RawFeature` carries its already-computed planar area in
  square metres and its centroid, exactly the quantities the module reads
  back from the geodataframe.
-/

/-- One upstream geometry record, after the external reprojection step.
`fid` is the OSM id (the second component of the geodataframe index). -/
structure RawFeature where
  fid : Nat
  area_m2 : ℚ
  lat : ℚ
  lon : ℚ
deriving DecidableEq, Repr

/-- The canonical output record built at `getSize.py` lines 264-274
(the fields the verified claims touch: id, sqft, centroid). -/
structure Building where
  id : Nat
  sqft : ℚ
  lat : ℚ
  lon : ℚ
deriving DecidableEq, Repr

/-- The dictionary returned by `get_buildings_by_size`: either
`{"total_buildings": n, "buildings": [...]}` or `{"error": msg}`. -/
inductive ResultSet where
  | ok (total_buildings : Nat) (buildings : List Building)
  | error (msg : String)
deriving DecidableEq, Repr

/-- The `buildings` list of a result (empty for the error variant). -/
def ResultSet.buildings : ResultSet → List Building
  | .ok _ bs => bs
  | .error _ => []

def ResultSet.isError : ResultSet → Bool
  | .ok _ _ => false
  | .error _ => true

/-- Python's `round` ties-to-even, idealised on rationals. -/
def round_half_even (x : ℚ) : ℤ :=
  let f := ⌊x⌋
  let r := x - (f : ℚ)
  if r < 1/2 then f
  else if 1/2 < r then f + 1
  else if f % 2 = 0 then f else f + 1

/-- `round(x, 2)` from line 266. -/
def round2 (x : ℚ) : ℚ := (round_half_even (100 * x) : ℚ) / 100

/-- The fixed m² → sqft factor from line 181 (`* 10.764`). -/
def sqftPerM2 : ℚ := 10764 / 1000

/-- Square-foot area of a feature (line 181: `area_m2 * 10.764`). -/
def RawFeature.area_sqft (f : RawFeature) : ℚ := f.area_m2 * sqftPerM2

/-- Record construction, lines 264-274: the stored `sqft` is the area
rounded to two decimals. -/
def mkRecord (f : RawFeature) : Building :=
  { id := f.fid, sqft := round2 f.area_sqft, lat := f.lat, lon := f.lon }

/-- Descending-by-sqft order used by `sort(key=lambda x: x["sqft"],
reverse=True)` (lines 279 and 372). -/
def sqftGe (a b : Building) : Prop := b.sqft ≤ a.sqft

instance : DecidableRel sqftGe := fun a b => inferInstanceAs (Decidable (b.sqft ≤ a.sqft))

instance : IsTotal Building sqftGe := ⟨fun a b => le_total b.sqft a.sqft⟩

instance : IsTrans Building sqftGe := ⟨fun _ _ _ h h' => le_trans h' h⟩

/-- Python's `list.sort` is stable; any stable sort for a total preorder
computes the same list, so insertion sort is an exact model. -/
def sortBySqftDesc (l : List Building) : List Building :=
  List.insertionSort sqftGe l

/-- Lines 189-276: keep features with `area_sqft >= min_sqft` (inclusive)
and build their records, in geodataframe iteration order. -/
def mkRecords (min_sqft : ℚ) (feats : List RawFeature) : List Building :=
  (feats.filter (fun f => min_sqft ≤ f.area_sqft)).map mkRecord

/-- Lines 189-284: filter, build records, sort descending, and package
with `total_buildings = len(building_results)`. -/
def processRecords (min_sqft : ℚ) (feats : List RawFeature) : ResultSet :=
  let sorted := sortBySqftDesc (mkRecords min_sqft feats)
  .ok sorted.length sorted

/-- Python's float `%` (sign of the divisor): `x - m * floor(x / m)`. -/
def pymod (x m : ℚ) : ℚ := x - m * ⌊x / m⌋

/-- Line 172: `int(((longitude + 180) / 6) % 60) + 1`.  The `%` result is
in `[0, 60)`, so `int` truncation coincides with `⌊·⌋`. -/
def utm_zone (longitude : ℚ) : ℤ := ⌊pymod ((longitude + 180) / 6) 60⌋ + 1

/-- The zone formula as the specification words it:
`floor((lon+180)/6) + 1` (no reduction modulo 60). -/
def specZone (longitude : ℚ) : ℤ := ⌊(longitude + 180) / 6⌋ + 1

/-- Line 173: `'north' if latitude >= 0 else 'south'`. -/
def hemisphere (latitude : ℚ) : String :=
  if latitude ≥ 0 then "north" else "south"

/-! ### Strings: substring tests used by the module

`getSize.py` branches on `"No matching features" in str(e)` (line 159) and
on `"connection" in str(e).lower() or "timeout" in str(e).lower()`
(line 90).  We implement the substring test on the character lists. -/

/-- `startsWithChars pat s` : `pat` is an initial segment of `s`. -/
def startsWithChars : List Char → List Char → Bool
  | [], _ => true
  | _ :: _, [] => false
  | a :: as, b :: bs => a == b && startsWithChars as bs

/-- `containsChars pat s` : `pat` occurs contiguously inside `s`. -/
def containsChars (pat : List Char) : List Char → Bool
  | [] => pat.isEmpty
  | c :: rest => startsWithChars pat (c :: rest) || containsChars pat rest

/-- Python's `pat in s` on strings. -/
def strContains (s pat : String) : Bool := containsChars pat.data s.data

/-- ASCII lower-casing, modelling `str.lower()` on the ASCII error
messages the module matches against. -/
def asciiLowerChar (c : Char) : Char :=
  if 'A' ≤ c ∧ c ≤ 'Z' then Char.ofNat (c.toNat + 32) else c

def asciiLower (s : String) : String := ⟨s.data.map asciiLowerChar⟩

/-! ### Endpoint registry (module globals, lines 22-29) -/

/-- `OVERPASS_ENDPOINTS`, lines 22-25. -/
def OVERPASS_ENDPOINTS : List String :=
  ["https://overpass-api.de/api/interpreter",
   "https://overpass.private.coffee/api/interpreter"]

/-- The module-level dictionaries `endpoint_status` and
`endpoint_last_used`, as association lists in which the most recent
binding for a key shadows earlier ones (dict overwrite). -/
structure Registry where
  status : List (String × Bool)
  lastUsed : List (String × Nat)
deriving DecidableEq, Repr

/-- Initial registry state (lines 28-29): every endpoint healthy,
last-used time 0. -/
def Registry.init : Registry :=
  { status := OVERPASS_ENDPOINTS.map (fun ep => (ep, true)),
    lastUsed := OVERPASS_ENDPOINTS.map (fun ep => (ep, 0)) }

/-- Dictionary read `endpoint_status[ep]` (defaults to the initial
`True` when the key is absent). -/
def statusOf (reg : Registry) (ep : String) : Bool :=
  ((reg.status.find? (fun p => p.1 == ep)).map (fun p => p.2)).getD true

/-- Dictionary read `endpoint_last_used[ep]` (defaults to the initial
`0` when the key is absent). -/
def lastUsedOf (reg : Registry) (ep : String) : Nat :=
  ((reg.lastUsed.find? (fun p => p.1 == ep)).map (fun p => p.2)).getD 0

/-- Dictionary write `endpoint_status[ep] = b`. -/
def setStatus (reg : Registry) (ep : String) (b : Bool) : Registry :=
  { reg with status := (ep, b) :: reg.status }

/-- Dictionary write `endpoint_last_used[ep] = t`. -/
def setLastUsed (reg : Registry) (ep : String) (t : Nat) : Registry :=
  { reg with lastUsed := (ep, t) :: reg.lastUsed }

/-- Lines 46-47: reset every endpoint's status to `True`. -/
def resetAll (reg : Registry) : Registry :=
  { reg with status := OVERPASS_ENDPOINTS.map (fun ep => (ep, true)) }

/-- Python's `min(working, key=lambda ep: endpoint_last_used[ep])`:
first element attaining the minimal key. -/
def leastRecentlyUsed (reg : Registry) : List String → String
  | [] => ""
  | ep :: rest =>
    rest.foldl (fun best e => if lastUsedOf reg e < lastUsedOf reg best then e else best) ep

/-- `get_overpass_endpoint`, lines 31-55.  Returns the chosen endpoint and
the (possibly reset) registry; note it never touches `endpoint_last_used`. -/
def get_overpass_endpoint (reg : Registry) (worker_id : Option Nat) : String × Registry :=
  let working := OVERPASS_ENDPOINTS.filter (fun ep => statusOf reg ep)
  let wr : List String × Registry :=
    if working.isEmpty then (OVERPASS_ENDPOINTS, resetAll reg) else (working, reg)
  match worker_id with
  | some w => (wr.1.getD (w % wr.1.length) "", wr.2)
  | none => (leastRecentlyUsed wr.2 wr.1, wr.2)

/-! ### Resilient fetcher (`with_endpoint_fallback`, lines 57-98) -/

/-- Outcome of one raw `func(*args)` call against a fixed endpoint:
either the feature list or a raised exception's message. -/
inductive AttemptResult where
  | ok (feats : List RawFeature)
  | err (msg : String)
deriving DecidableEq, Repr

/-- Line 95: `"; ".join(f"{ep}: {err}" for ...)`. -/
def joinErrs : List (String × String) → String
  | [] => ""
  | [(ep, m)] => ep ++ ": " ++ m
  | (ep, m) :: e :: rest => ep ++ ": " ++ m ++ "; " ++ joinErrs (e :: rest)

/-- Line 96: the aggregated exception message. -/
def aggMsg (errors : List (String × String)) : String :=
  "All Overpass endpoints failed. Errors: " ++ joinErrs errors

/-- Line 90: connection/timeout detection on the lowered message. -/
def isConnectionError (m : String) : Bool :=
  strContains (asciiLower m) "connection" || strContains (asciiLower m) "timeout"

deriving instance DecidableEq for Except

/-- Result of the whole wrapper: the returned value or the raised
aggregate, the final registry, and the endpoints actually attempted. -/
structure FallbackOutput where
  result : Except String (List RawFeature)
  reg : Registry
  attempted : List String
deriving DecidableEq, Repr

/-- The `for endpoint in endpoints_to_try` loop, lines 71-96.  An
unhealthy endpoint is skipped; otherwise its last-used time is recorded
(line 79) *before* the call, then the call's outcome is examined. -/
def tryEndpoints (behavior : String → AttemptResult) (now : Nat) :
    List String → Registry → List (String × String) → FallbackOutput
  | [], reg, errors => ⟨.error (aggMsg errors), reg, []⟩
  | ep :: rest, reg, errors =>
    if statusOf reg ep then
      let reg1 := setLastUsed reg ep now
      match behavior ep with
      | .ok feats => ⟨.ok feats, reg1, [ep]⟩
      | .err m =>
        let reg2 := if isConnectionError m then setStatus reg1 ep false else reg1
        let out := tryEndpoints behavior now rest reg2 (errors ++ [(ep, m)])
        ⟨out.result, out.reg, ep :: out.attempted⟩
    else
      tryEndpoints behavior now rest reg errors

/-- `with_endpoint_fallback` applied to `get_buildings_from_osm`,
lines 57-103: pick the primary endpoint, then try it followed by every
other configured endpoint. -/
def with_endpoint_fallback (reg : Registry) (worker_id : Option Nat)
    (behavior : String → AttemptResult) (now : Nat) : FallbackOutput :=
  let pr := get_overpass_endpoint reg worker_id
  let endpoints_to_try := pr.1 :: OVERPASS_ENDPOINTS.filter (fun ep => ep ≠ pr.1)
  tryEndpoints behavior now endpoints_to_try pr.2 []

/-! ### Result cache (lines 130-145 and 286-292) -/

/-- Cache key: the parameters hashed into the file name
`buildings_{md5("osmnx_{lon}_{lat}_{radius}_{min_sqft}")}.pkl`.  The hash
is modelled as the parameter tuple itself (the f-string it digests is
injective in the parameters, and md5 collisions are out of scope). -/
abbrev CacheKey : Type := ℚ × ℚ × ℚ × ℚ

/-- Contents of one pickle file: either a pickled `ResultSet` or bytes
that `pickle.load` rejects. -/
inductive Blob where
  | good (r : ResultSet)
  | corrupt (junk : String)
deriving DecidableEq, Repr

/-- One cache file with its `st_mtime`. -/
structure CacheFile where
  mtime : Nat
  blob : Blob
deriving DecidableEq, Repr

/-- The `./cache` directory: its existence flag and its files, as an
association list in which the most recent write shadows older ones. -/
structure FileSystem where
  cacheDirExists : Bool
  files : List (CacheKey × CacheFile)
deriving DecidableEq, Repr

def FileSystem.lookup (fs : FileSystem) (k : CacheKey) : Option CacheFile :=
  (fs.files.find? (fun p => p.1 == k)).map (fun p => p.2)

/-- `os.makedirs(cache_dir, exist_ok=True)` followed by
`pickle.dump(result, f)` (lines 288-290). -/
def FileSystem.write (fs : FileSystem) (k : CacheKey) (cf : CacheFile) : FileSystem :=
  { cacheDirExists := true, files := (k, cf) :: fs.files }

/-- Lines 137-145: the value a fresh, readable cache record yields;
`none` on a miss, a stale record, or a `pickle.load` failure. -/
def freshCached (fs : FileSystem) (k : CacheKey) (now : Nat) : Option ResultSet :=
  match fs.lookup k with
  | some cf =>
    if now - cf.mtime < 86400 then
      match cf.blob with
      | .good r => some r
      | .corrupt _ => none
    else none
  | none => none

/-- Everything one call to `get_buildings_by_size` produces: the returned
dictionary, the cache directory and registry after the call, whether a
live upstream fetch was performed, and which endpoints it attempted. -/
structure QueryOutput where
  result : ResultSet
  fs : FileSystem
  reg : Registry
  didFetch : Bool
  attempted : List String
deriving DecidableEq, Repr

/-- The marker matched at line 159. -/
def noMatchingMarker : String := "No matching features"

/-- The body after the cache check, lines 147-297: fetch with endpoint
fallback; a raised aggregate containing "No matching features" becomes
the explicit empty result (lines 157-164); an empty feature list returns
the empty result directly (lines 166-169, before the cache write); a
processed result is cached when `use_cache` (lines 286-290); any other
exception becomes an error dictionary (lines 294-297). -/
def live_query (fs : FileSystem) (reg : Registry) (behavior : String → AttemptResult)
    (now : Nat) (longitude latitude min_sqft radius : ℚ) (use_cache : Bool)
    (worker_id : Option Nat) : QueryOutput :=
  let fb := with_endpoint_fallback reg worker_id behavior now
  match fb.result with
  | .error e =>
    if strContains e noMatchingMarker then
      ⟨.ok 0 [], fs, fb.reg, true, fb.attempted⟩
    else
      ⟨.error e, fs, fb.reg, true, fb.attempted⟩
  | .ok feats =>
    if feats.isEmpty then
      ⟨.ok 0 [], fs, fb.reg, true, fb.attempted⟩
    else
      let r := processRecords min_sqft feats
      ⟨r,
       if use_cache then fs.write (longitude, latitude, radius, min_sqft) ⟨now, .good r⟩ else fs,
       fb.reg, true, fb.attempted⟩

/-- `get_buildings_by_size`, lines 105-297: serve a fresh readable cache
record if caching is enabled, otherwise run the live body. -/
def get_buildings_by_size (fs : FileSystem) (reg : Registry)
    (behavior : String → AttemptResult) (now : Nat)
    (longitude latitude min_sqft radius : ℚ) (use_cache : Bool)
    (worker_id : Option Nat) : QueryOutput :=
  match (if use_cache then freshCached fs (longitude, latitude, radius, min_sqft) now else none) with
  | some r => ⟨r, fs, reg, false, []⟩
  | none => live_query fs reg behavior now longitude latitude min_sqft radius use_cache worker_id

/-! ### Quadrant merge (`process_quadrants`, lines 328-374)

The four quadrant pipelines run in worker processes; their four returned
dictionaries are the input here.  Lines 357-360 collect the building
lists (an error dictionary has no `"buildings"` key and is skipped; the
running `total_buildings` sum is overwritten at line 369 and therefore
not modelled); lines 362-369 deduplicate by id keeping the first-seen
record; lines 371-372 re-sort. -/

/-- Lines 357-360: concatenate the `"buildings"` lists of the quadrant
results that have one. -/
def collectQuadrantBuildings (qs : List ResultSet) : List Building :=
  qs.foldl
    (fun acc q =>
      match q with
      | .ok _ bs => acc ++ bs
      | .error _ => acc)
    []

/-- Lines 362-366: the `unique_buildings` dict — insert each building
under its id only if the id is not yet present; `list(values())` is the
insertion order, i.e. the order of first occurrences. -/
def dedupAux : List Building → List Nat → List Building
  | [], _ => []
  | b :: rest, seen =>
    if seen.contains b.id then dedupAux rest seen
    else b :: dedupAux rest (b.id :: seen)

def dedupById (bs : List Building) : List Building := dedupAux bs []

/-- Lines 328-374, the merge stage of `process_quadrants`. -/
def process_quadrants_merge (qs : List ResultSet) : ResultSet :=
  let allB := collectQuadrantBuildings qs
  let uniq := dedupById allB
  .ok uniq.length (sortBySqftDesc uniq)

/-- Modelled from the spec's words for claim C5 (a second formulation to
compare with the source translation): error quadrants contribute zero
buildings, the remaining lists are concatenated, deduplicated by
identifier keeping the first-seen record, re-sorted descending by area,
and the total is the number of deduplicated records. -/
def quadrantContribution (q : ResultSet) : List Building :=
  match q with
  | .ok _ bs => bs
  | .error _ => []

/-- First-seen deduplication as the specification words it. -/
def dedupFirstSpec : List Building → List Building
  | [] => []
  | b :: rest => b :: dedupFirstSpec (rest.filter (fun c => !(c.id == b.id)))
termination_by l => l.length
decreasing_by
  simp only [List.length_cons]
  exact Nat.lt_succ_of_le (List.length_filter_le _ _)

/-- The spec-side merge pipeline for claim C5. -/
def mergeSpec (qs : List ResultSet) : ResultSet :=
  let merged := (qs.map quadrantContribution).flatten
  let uniq := dedupFirstSpec merged
  .ok uniq.length (sortBySqftDesc uniq)

/-! ### Helper lemmas: substring tests under concatenation -/

lemma startsWithChars_append (pat s t : List Char) (h : startsWithChars pat s = true) :
    startsWithChars pat (s ++ t) = true := by
  induction pat generalizing s with
  | nil => rfl
  | cons a as ih =>
    cases s with
    | nil => simp [startsWithChars] at h
    | cons b bs =>
      simp only [startsWithChars, Bool.and_eq_true] at h
      simp only [List.cons_append, startsWithChars, Bool.and_eq_true]
      exact ⟨h.1, ih bs h.2⟩

lemma containsChars_nil_pat (s : List Char) : containsChars [] s = true := by
  cases s <;> simp [containsChars, startsWithChars]

lemma containsChars_append_left (pat s t : List Char) (h : containsChars pat s = true) :
    containsChars pat (s ++ t) = true := by
  induction s with
  | nil =>
    simp only [containsChars, List.isEmpty_iff] at h
    subst h
    exact containsChars_nil_pat t
  | cons c cs ih =>
    simp only [containsChars, Bool.or_eq_true] at h
    simp only [List.cons_append, containsChars, Bool.or_eq_true]
    cases h with
    | inl h => exact Or.inl (by simpa using startsWithChars_append pat (c :: cs) t h)
    | inr h => exact Or.inr (ih h)

lemma containsChars_append_right (pat s t : List Char) (h : containsChars pat t = true) :
    containsChars pat (s ++ t) = true := by
  induction s with
  | nil => exact h
  | cons c cs ih =>
    simp only [List.cons_append, containsChars, Bool.or_eq_true]
    exact Or.inr ih

lemma strContains_append_left (s t pat : String) (h : strContains s pat = true) :
    strContains (s ++ t) pat = true := by
  unfold strContains at h ⊢
  rw [String.data_append]
  exact containsChars_append_left _ _ _ h

lemma strContains_append_right (s t pat : String) (h : strContains t pat = true) :
    strContains (s ++ t) pat = true := by
  unfold strContains at h ⊢
  rw [String.data_append]
  exact containsChars_append_right _ _ _ h

/-! ### Helper lemmas: registry dictionary operations -/

lemma statusOf_setLastUsed (reg : Registry) (ep : String) (t : Nat) (x : String) :
    statusOf (setLastUsed reg ep t) x = statusOf reg x := rfl

lemma lastUsedOf_setStatus (reg : Registry) (ep : String) (b : Bool) (x : String) :
    lastUsedOf (setStatus reg ep b) x = lastUsedOf reg x := rfl

lemma lastUsedOf_setLastUsed_self (reg : Registry) (ep : String) (t : Nat) :
    lastUsedOf (setLastUsed reg ep t) ep = t := by
  simp [lastUsedOf, setLastUsed, List.find?_cons]

lemma lastUsedOf_setLastUsed_ne (reg : Registry) (ep : String) (t : Nat) (x : String)
    (h : x ≠ ep) : lastUsedOf (setLastUsed reg ep t) x = lastUsedOf reg x := by
  have hbeq : (ep == x) = false := beq_eq_false_iff_ne.mpr (Ne.symm h)
  simp [lastUsedOf, setLastUsed, List.find?_cons, hbeq]

lemma statusOf_setStatus_ne (reg : Registry) (ep : String) (b : Bool) (x : String)
    (h : x ≠ ep) : statusOf (setStatus reg ep b) x = statusOf reg x := by
  have hbeq : (ep == x) = false := beq_eq_false_iff_ne.mpr (Ne.symm h)
  simp [statusOf, setStatus, List.find?_cons, hbeq]

lemma lastUsedOf_resetAll (reg : Registry) (x : String) :
    lastUsedOf (resetAll reg) x = lastUsedOf reg x := rfl

lemma lastUsedOf_get_overpass_endpoint (reg : Registry) (wid : Option Nat) (x : String) :
    lastUsedOf (get_overpass_endpoint reg wid).2 x = lastUsedOf reg x := by
  unfold get_overpass_endpoint
  cases wid <;> by_cases h : (OVERPASS_ENDPOINTS.filter (fun ep => statusOf reg ep)).isEmpty <;>
    simp [h, lastUsedOf_resetAll]

/-! ### Helper lemmas: cache file system -/

lemma lookup_write_self (fs : FileSystem) (k : CacheKey) (cf : CacheFile) :
    (fs.write k cf).lookup k = some cf := by
  simp [FileSystem.write, FileSystem.lookup, List.find?_cons]

/-! ### Helper lemmas: the stable descending sort -/

lemma filter_orderedInsert_sqft (v : ℚ) (b : Building) (l : List Building) :
    (List.orderedInsert sqftGe b l).filter (fun x => x.sqft == v) =
      if b.sqft = v then b :: l.filter (fun x => x.sqft == v)
      else l.filter (fun x => x.sqft == v) := by
  induction l with
  | nil =>
    by_cases hb : b.sqft = v
    · simp [List.orderedInsert, List.filter, beq_iff_eq, hb]
    · have hbb : (b.sqft == v) = false := by simp [hb]
      simp [List.orderedInsert, List.filter, hbb, hb]
  | cons c cs ih =>
    by_cases hbc : sqftGe b c
    · rw [List.orderedInsert_of_le _ _ hbc]
      by_cases hb : b.sqft = v <;> simp [List.filter_cons, hb]
    · have hlt : b.sqft < c.sqft := lt_of_not_le hbc
      simp only [List.orderedInsert, if_neg hbc]
      by_cases hb : b.sqft = v
      · have hc : ¬ (c.sqft = v) := by
          intro h
          exact absurd (le_of_eq (h.trans hb.symm)) hbc
        simp [List.filter_cons, hc, hb, ih]
      · by_cases hcv : c.sqft = v <;> simp [List.filter_cons, hcv, hb, ih]

lemma filter_sortBySqftDesc (v : ℚ) (l : List Building) :
    (sortBySqftDesc l).filter (fun x => x.sqft == v) = l.filter (fun x => x.sqft == v) := by
  induction l with
  | nil => rfl
  | cons b rest ih =>
    show (List.orderedInsert sqftGe b (List.insertionSort sqftGe rest)).filter _ = _
    rw [filter_orderedInsert_sqft]
    by_cases hb : b.sqft = v <;> simp [List.filter_cons, hb] <;> exact ih

lemma sorted_sortBySqftDesc (l : List Building) : List.Sorted sqftGe (sortBySqftDesc l) :=
  List.sorted_insertionSort sqftGe l

/-! ### Helper lemmas: first-seen deduplication -/

lemma dedupAux_eq (l : List Building) : ∀ seen : List Nat,
    dedupAux l seen = dedupFirstSpec (l.filter (fun b => !(seen.contains b.id))) := by
  induction l with
  | nil => intro seen; simp [dedupAux, dedupFirstSpec]
  | cons b rest ih =>
    intro seen
    cases hb : seen.contains b.id with
    | true =>
      have hb' : b.id ∈ seen := by simpa using hb
      rw [dedupAux, if_pos hb, ih seen, List.filter_cons]
      simp [hb']
    | false =>
      have hb' : b.id ∉ seen := by simpa using hb
      rw [dedupAux, if_neg (by simp [hb']), ih (b.id :: seen), List.filter_cons]
      rw [if_pos (by simp [hb'])]
      rw [dedupFirstSpec, List.filter_filter]
      congr 2
      apply List.filter_congr
      intro c _
      by_cases hcb : c.id = b.id <;>
        simp [List.contains_cons, Bool.not_or, Bool.and_comm, hcb]

lemma dedupById_eq (l : List Building) : dedupById l = dedupFirstSpec l := by
  rw [dedupById, dedupAux_eq]
  simp

lemma collectQuadrantBuildings_eq (qs : List ResultSet) :
    collectQuadrantBuildings qs = (qs.map quadrantContribution).flatten := by
  have h : ∀ (qs : List ResultSet) (acc : List Building),
      qs.foldl
          (fun acc q =>
            match q with
            | .ok _ bs => acc ++ bs
            | .error _ => acc)
          acc = acc ++ (qs.map quadrantContribution).flatten := by
    intro qs
    induction qs with
    | nil => intro acc; simp
    | cons q rest ih => intro acc; cases q <;> simp [quadrantContribution, ih]
  simpa [collectQuadrantBuildings] using h qs []

/-! ### Helper lemmas: rounding -/

lemma round_half_even_ge_floor (x : ℚ) : ⌊x⌋ ≤ round_half_even x := by
  simp only [round_half_even]
  split_ifs <;> omega

lemma round2_ge_of_centi_le (k : ℤ) (x : ℚ) (h : (k : ℚ) / 100 ≤ x) :
    (k : ℚ) / 100 ≤ round2 x := by
  have h1 : (k : ℚ) ≤ 100 * x := by
    have := (div_le_iff₀ (by norm_num : (0:ℚ) < 100)).mp h
    linarith
  have h2 : k ≤ ⌊100 * x⌋ := Int.le_floor.mpr h1
  have h3 : (k : ℚ) ≤ (round_half_even (100 * x) : ℚ) := by
    exact_mod_cast h2.trans (round_half_even_ge_floor _)
  rw [round2]
  linarith

/-! ### Helper lemmas: the live query body -/

lemma live_query_didFetch (fs : FileSystem) (reg : Registry) (behavior : String → AttemptResult)
    (now : Nat) (lon lat min_sqft radius : ℚ) (uc : Bool) (wid : Option Nat) :
    (live_query fs reg behavior now lon lat min_sqft radius uc wid).didFetch = true := by
  cases h : (with_endpoint_fallback reg wid behavior now).result <;>
    simp [live_query, h] <;> split <;> rfl

lemma live_query_result_ext (fs1 fs2 : FileSystem) (reg : Registry)
    (behavior : String → AttemptResult) (now : Nat) (lon lat min_sqft radius : ℚ)
    (uc1 uc2 : Bool) (wid : Option Nat) :
    (live_query fs1 reg behavior now lon lat min_sqft radius uc1 wid).result =
      (live_query fs2 reg behavior now lon lat min_sqft radius uc2 wid).result := by
  cases h : (with_endpoint_fallback reg wid behavior now).result <;>
    simp [live_query, h] <;> split <;> rfl

lemma live_query_fs_nocache (fs : FileSystem) (reg : Registry)
    (behavior : String → AttemptResult) (now : Nat) (lon lat min_sqft radius : ℚ)
    (wid : Option Nat) :
    (live_query fs reg behavior now lon lat min_sqft radius false wid).fs = fs := by
  cases h : (with_endpoint_fallback reg wid behavior now).result <;>
    simp [live_query, h] <;> split <;> rfl

lemma gbbs_nocache (fs : FileSystem) (reg : Registry) (behavior : String → AttemptResult)
    (now : Nat) (lon lat min_sqft radius : ℚ) (wid : Option Nat) :
    get_buildings_by_size fs reg behavior now lon lat min_sqft radius false wid =
      live_query fs reg behavior now lon lat min_sqft radius false wid := rfl

lemma gbbs_miss (fs : FileSystem) (reg : Registry) (behavior : String → AttemptResult)
    (now : Nat) (lon lat min_sqft radius : ℚ) (wid : Option Nat)
    (hmiss : freshCached fs (lon, lat, radius, min_sqft) now = none) :
    get_buildings_by_size fs reg behavior now lon lat min_sqft radius true wid =
      live_query fs reg behavior now lon lat min_sqft radius true wid := by
  simp [get_buildings_by_size, hmiss]

lemma gbbs_hit (fs : FileSystem) (reg : Registry) (behavior : String → AttemptResult)
    (now : Nat) (lon lat min_sqft radius : ℚ) (wid : Option Nat) (r : ResultSet)
    (hhit : freshCached fs (lon, lat, radius, min_sqft) now = some r) :
    get_buildings_by_size fs reg behavior now lon lat min_sqft radius true wid =
      ⟨r, fs, reg, false, []⟩ := by
  simp [get_buildings_by_size, hhit]

lemma gbbs_success (fs : FileSystem) (reg : Registry) (behavior : String → AttemptResult)
    (now : Nat) (lon lat min_sqft radius : ℚ) (wid : Option Nat) (feats : List RawFeature)
    (hmiss : freshCached fs (lon, lat, radius, min_sqft) now = none)
    (hok : (with_endpoint_fallback reg wid behavior now).result = .ok feats)
    (hne : feats ≠ []) :
    get_buildings_by_size fs reg behavior now lon lat min_sqft radius true wid =
      ⟨processRecords min_sqft feats,
       fs.write (lon, lat, radius, min_sqft) ⟨now, .good (processRecords min_sqft feats)⟩,
       (with_endpoint_fallback reg wid behavior now).reg, true,
       (with_endpoint_fallback reg wid behavior now).attempted⟩ := by
  rw [gbbs_miss _ _ _ _ _ _ _ _ _ hmiss]
  have hemp : feats.isEmpty = false := by
    cases feats with
    | nil => exact absurd rfl hne
    | cons a l => rfl
  simp [live_query, hok, hemp]

/-! ### Helper lemmas: the endpoint-fallback loop -/

lemma tryEndpoints_lastUsed (behavior : String → AttemptResult) (now : Nat) :
    ∀ (l : List String) (reg : Registry) (errs : List (String × String)),
      (∀ ep ∈ (tryEndpoints behavior now l reg errs).attempted,
          lastUsedOf (tryEndpoints behavior now l reg errs).reg ep = now) ∧
      (∀ ep, ep ∉ (tryEndpoints behavior now l reg errs).attempted →
          lastUsedOf (tryEndpoints behavior now l reg errs).reg ep = lastUsedOf reg ep) := by
  intro l
  induction l with
  | nil =>
    intro reg errs
    constructor
    · intro ep hep
      simp [tryEndpoints] at hep
    · intro ep _
      rfl
  | cons e rest ih =>
    intro reg errs
    by_cases hst : statusOf reg e = true
    · rw [tryEndpoints, if_pos hst]
      cases hbe : behavior e with
      | ok feats =>
        constructor
        · intro ep hep
          simp only [List.mem_singleton] at hep
          subst hep
          exact lastUsedOf_setLastUsed_self reg ep now
        · intro ep hep
          simp only [List.mem_singleton] at hep
          exact lastUsedOf_setLastUsed_ne reg e now ep hep
      | err m =>
        set reg2 := if isConnectionError m then
            setStatus (setLastUsed reg e now) e false else setLastUsed reg e now with hreg2
        have hl2 : ∀ x, lastUsedOf reg2 x = lastUsedOf (setLastUsed reg e now) x := by
          intro x
          rw [hreg2]
          by_cases hc : isConnectionError m <;> simp [hc, lastUsedOf_setStatus]
        obtain ⟨ih1, ih2⟩ := ih reg2 (errs ++ [(e, m)])
        constructor
        · intro ep hep
          rcases List.mem_cons.mp hep with rfl | hmem
          · by_cases hin : ep ∈ (tryEndpoints behavior now rest reg2 (errs ++ [(ep, m)])).attempted
            · exact ih1 ep hin
            · rw [ih2 ep hin, hl2 ep]
              exact lastUsedOf_setLastUsed_self reg ep now
          · exact ih1 ep hmem
        · intro ep hep
          have hne : ep ≠ e := fun h => hep (h ▸ List.mem_cons_self e _)
          have hnm : ep ∉ (tryEndpoints behavior now rest reg2 (errs ++ [(e, m)])).attempted :=
            fun h => hep (List.mem_cons_of_mem e h)
          rw [ih2 ep hnm, hl2 ep]
          exact lastUsedOf_setLastUsed_ne reg e now ep hne
    · rw [tryEndpoints, if_neg hst]
      exact ih reg errs

lemma tryEndpoints_two_fail (behavior : String → AttemptResult) (now : Nat)
    (p o : String) (reg : Registry) (errs : List (String × String)) (mp mo : String)
    (hop : o ≠ p)
    (hps : statusOf reg p = true) (hos : statusOf reg o = true)
    (hbp : behavior p = .err mp) (hbo : behavior o = .err mo) :
    (tryEndpoints behavior now [p, o] reg errs).result =
        .error (aggMsg (errs ++ [(p, mp), (o, mo)])) ∧
    (tryEndpoints behavior now [p, o] reg errs).attempted = [p, o] := by
  rw [tryEndpoints, if_pos hps]
  simp only [hbp]
  have hos1 : ∀ reg2 : Registry,
      (∀ x ≠ p, statusOf reg2 x = statusOf reg x) →
      (tryEndpoints behavior now [o] reg2 (errs ++ [(p, mp)])).result =
          .error (aggMsg (errs ++ [(p, mp), (o, mo)])) ∧
      (tryEndpoints behavior now [o] reg2 (errs ++ [(p, mp)])).attempted = [o] := by
    intro reg2 hframe
    have hos2 : statusOf reg2 o = true := by rw [hframe o hop]; exact hos
    rw [tryEndpoints, if_pos hos2]
    simp only [hbo]
    rw [tryEndpoints]
    simp
  by_cases hc : isConnectionError mp
  · simp only [hc, if_pos]
    obtain ⟨h1, h2⟩ := hos1 (setStatus (setLastUsed reg p now) p false)
      (fun x hx => by rw [statusOf_setStatus_ne _ _ _ _ hx, statusOf_setLastUsed])
    refine ⟨by simpa using h1, by simpa using h2⟩
  · simp only [hc, if_neg, Bool.false_eq_true, ite_false]
    obtain ⟨h1, h2⟩ := hos1 (setLastUsed reg p now)
      (fun x _ => by rw [statusOf_setLastUsed])
    refine ⟨by simpa using h1, by simpa using h2⟩

/-- The default endpoint (line 23). -/
def epDE : String := "https://overpass-api.de/api/interpreter"

/-- The alternative endpoint (line 24). -/
def epCoffee : String := "https://overpass.private.coffee/api/interpreter"

lemma overpass_endpoints_eq : OVERPASS_ENDPOINTS = [epDE, epCoffee] := rfl

lemma epCoffee_ne_epDE : epCoffee ≠ epDE := by decide

lemma strContains_aggMsg_two (p o mp mo pat : String) (h : strContains mp pat = true) :
    strContains (aggMsg [(p, mp), (o, mo)]) pat = true := by
  show strContains
    ("All Overpass endpoints failed. Errors: " ++ (p ++ ": " ++ mp ++ "; " ++ joinErrs [(o, mo)]))
    pat = true
  apply strContains_append_right
  apply strContains_append_left
  apply strContains_append_left
  apply strContains_append_right
  exact h

/-- With both configured endpoints healthy and every attempt failing, the
wrapper attempts the primary then the other endpoint and raises the
two-part aggregate (in one of the two symmetric orders). -/
lemma with_endpoint_fallback_two_fail (reg : Registry) (msg : String → String) (now : Nat)
    (h1 : statusOf reg epDE = true) (h2 : statusOf reg epCoffee = true) :
    ∃ p o, ((p = epDE ∧ o = epCoffee) ∨ (p = epCoffee ∧ o = epDE)) ∧
      (with_endpoint_fallback reg none (fun ep => .err (msg ep)) now).result =
        .error (aggMsg [(p, msg p), (o, msg o)]) ∧
      (with_endpoint_fallback reg none (fun ep => .err (msg ep)) now).attempted = [p, o] := by
  have hwork : OVERPASS_ENDPOINTS.filter (fun ep => statusOf reg ep) = [epDE, epCoffee] := by
    rw [overpass_endpoints_eq]
    simp [List.filter_cons, h1, h2]
  have hsel : get_overpass_endpoint reg none =
      (if lastUsedOf reg epCoffee < lastUsedOf reg epDE then epCoffee else epDE, reg) := by
    unfold get_overpass_endpoint
    rw [hwork]
    simp [leastRecentlyUsed]
  unfold with_endpoint_fallback
  rw [hsel]
  by_cases hlru : lastUsedOf reg epCoffee < lastUsedOf reg epDE
  · refine ⟨epCoffee, epDE, Or.inr ⟨rfl, rfl⟩, ?_⟩
    rw [if_pos hlru]
    have hfilter : OVERPASS_ENDPOINTS.filter (fun ep => ep ≠ epCoffee) = [epDE] := by
      rw [overpass_endpoints_eq]
      simp [List.filter_cons, epCoffee_ne_epDE.symm]
    simp only [hfilter]
    exact tryEndpoints_two_fail _ now epCoffee epDE reg [] (msg epCoffee) (msg epDE)
      (Ne.symm epCoffee_ne_epDE) h2 h1 rfl rfl
  · refine ⟨epDE, epCoffee, Or.inl ⟨rfl, rfl⟩, ?_⟩
    rw [if_neg hlru]
    have hfilter : OVERPASS_ENDPOINTS.filter (fun ep => ep ≠ epDE) = [epCoffee] := by
      rw [overpass_endpoints_eq]
      simp [List.filter_cons, epCoffee_ne_epDE]
    simp only [hfilter]
    exact tryEndpoints_two_fail _ now epDE epCoffee reg [] (msg epDE) (msg epCoffee)
      epCoffee_ne_epDE h1 h2 rfl rfl

/-- The `total_buildings` count of a result (0 for the error variant). -/
def ResultSet.total : ResultSet → Nat
  | .ok n _ => n
  | .error _ => 0

/-! ### Helper lemmas: concrete evaluation of the record pipeline -/

lemma round_half_even_intCast (m : ℤ) : round_half_even (m : ℚ) = m := by
  simp [round_half_even, Int.floor_intCast]

lemma round2_intCast (m : ℤ) : round2 (m : ℚ) = m := by
  have h100 : (100 : ℚ) * (m : ℚ) = ((100 * m : ℤ) : ℚ) := by push_cast; ring
  rw [round2, h100, round_half_even_intCast]
  push_cast
  field_simp

lemma area_sqft_example : (⟨1, 250, 0, 0⟩ : RawFeature).area_sqft = 2691 := by
  rw [RawFeature.area_sqft, sqftPerM2]
  norm_num

lemma processRecords_example :
    processRecords 0 [⟨1, 250, 0, 0⟩] = .ok 1 [⟨1, 2691, 0, 0⟩] := by
  have hround : round2 ((2691 : ℚ)) = 2691 := by
    have := round2_intCast 2691
    push_cast at this
    exact this
  have hfilter : mkRecords 0 [⟨1, 250, 0, 0⟩] = [⟨1, 2691, 0, 0⟩] := by
    rw [mkRecords, List.filter_cons]
    rw [if_pos (by simp [area_sqft_example] : (decide ((0:ℚ) ≤ (⟨1, 250, 0, 0⟩ : RawFeature).area_sqft)) = true)]
    simp [mkRecord, area_sqft_example, hround]
  simp [processRecords, hfilter, sortBySqftDesc, List.insertionSort]

/-! ## Claim C6: projection zone and hemisphere -/

/-- C6, counterexample: the claim's zone formula `floor((lon+180)/6)+1`
disagrees with the code at the valid query longitude 180 (the
antimeridian): line 172 reduces modulo 60, giving zone 1, while the
claimed formula gives 61. -/
theorem c6_zone_counterexample : utm_zone 180 = 1 ∧ specZone 180 = 61 := by
  constructor <;> norm_num [utm_zone, specZone, pymod]

/-- C6, amended: for longitudes in `[-180, 180)` the code's zone
`int(((lon+180)/6) % 60) + 1` coincides with `floor((lon+180)/6) + 1`
(the `% 60` only matters at or beyond the antimeridian), and the
hemisphere is "north" exactly when `lat ≥ 0`. -/
theorem c6_zone_amended (lon lat : ℚ) (h1 : -180 ≤ lon) (h2 : lon < 180) :
    utm_zone lon = specZone lon ∧ (hemisphere lat = "north" ↔ 0 ≤ lat) := by
  constructor
  · have hy0 : (0 : ℚ) ≤ (lon + 180) / 6 := by
      apply div_nonneg _ (by norm_num)
      linarith
    have hy1 : (lon + 180) / 6 < 60 := by
      rw [div_lt_iff₀ (by norm_num : (0:ℚ) < 6)]
      linarith
    have hfloor : ⌊((lon + 180) / 6) / 60⌋ = 0 := by
      rw [Int.floor_eq_zero_iff]
      constructor
      · exact div_nonneg hy0 (by norm_num)
      · rw [div_lt_one (by norm_num : (0:ℚ) < 60)]
        exact hy1
    rw [utm_zone, specZone, pymod, hfloor]
    norm_num
  · rw [hemisphere]
    by_cases h : (0:ℚ) ≤ lat
    · rw [if_pos h]
      simp [h]
    · rw [if_neg h]
      constructor
      · intro hc
        exact absurd hc (by decide)
      · intro hc
        exact absurd hc h

/-- C6, witness at `lon = 0`, `lat = 0` (zone 31, northern hemisphere). -/
theorem c6_zone_amended_witness :
    utm_zone 0 = specZone 0 ∧ (hemisphere 0 = "north" ↔ (0:ℚ) ≤ 0) :=
  c6_zone_amended 0 0 (by norm_num) (by norm_num)

/-! ## Claim C7: descending order and tie stability -/

/-- C7: in every non-error ResultSet produced by the direct pipeline or
by the quadrant merge, the records are pairwise non-increasing in
`sqft`, and filtering any fixed `sqft` value `v` out of the sorted list
returns those records in their pre-sort (original) relative order — the
sort is stable on ties. -/
theorem c7_sorted_stable (min_sqft : ℚ) (feats : List RawFeature)
    (qs : List ResultSet) (v : ℚ) :
    List.Sorted sqftGe (processRecords min_sqft feats).buildings ∧
    (processRecords min_sqft feats).buildings.filter (fun b => b.sqft == v) =
      (mkRecords min_sqft feats).filter (fun b => b.sqft == v) ∧
    List.Sorted sqftGe (process_quadrants_merge qs).buildings ∧
    (process_quadrants_merge qs).buildings.filter (fun b => b.sqft == v) =
      (dedupById (collectQuadrantBuildings qs)).filter (fun b => b.sqft == v) := by
  refine ⟨?_, ?_, ?_, ?_⟩
  · exact sorted_sortBySqftDesc _
  · exact filter_sortBySqftDesc v _
  · exact sorted_sortBySqftDesc _
  · exact filter_sortBySqftDesc v _

/-! ## Claim C5: the quadrant merge pipeline -/

/-- C5: the merge stage of `process_quadrants` equals the specified
pipeline — error quadrants contribute zero buildings (no whole-operation
failure), the surviving lists are concatenated in quadrant order,
deduplicated by id keeping the first-seen record, re-sorted descending
by area, and the total is the number of deduplicated records. -/
theorem c5_merge_refines_spec (q1 q2 q3 q4 : ResultSet) :
    process_quadrants_merge [q1, q2, q3, q4] = mergeSpec [q1, q2, q3, q4] := by
  rw [process_quadrants_merge, mergeSpec, collectQuadrantBuildings_eq, dedupById_eq]

/-! ## Claim C3: count and minimum-size filtering -/

/-- C3, counterexample: the stored `sqft` is the area rounded to two
decimals (line 266), so with `min_sqft = 100.004` a feature of exact
area 100.004 sqft passes the inclusive filter but is reported with
`sqft = 100.0 < min_sqft`, refuting "every returned record's sqft value
is greater than or equal to min_sqft". -/
theorem c3_filter_counterexample :
    (processRecords (25001/250) [⟨1, 25001/2691, 0, 0⟩]).buildings = [⟨1, 100, 0, 0⟩] ∧
    ¬ ((25001 : ℚ)/250 ≤ (100 : ℚ)) := by
  have harea : (⟨1, 25001/2691, 0, 0⟩ : RawFeature).area_sqft = 25001/250 := by
    rw [RawFeature.area_sqft, sqftPerM2]
    norm_num
  have hround : round2 ((25001 : ℚ)/250) = 100 := by
    rw [round2]
    have h1 : (100 : ℚ) * (25001/250) = 50002/5 := by norm_num
    rw [h1]
    have hf : ⌊(50002 : ℚ)/5⌋ = 10000 := by norm_num [Int.floor_eq_iff]
    have h2 : round_half_even ((50002 : ℚ)/5) = 10000 := by
      simp only [round_half_even, hf]
      norm_num
    rw [h2]
    norm_num
  constructor
  · have hfilter : mkRecords (25001/250) [⟨1, 25001/2691, 0, 0⟩] = [⟨1, 100, 0, 0⟩] := by
      rw [mkRecords, List.filter_cons]
      rw [if_pos (by simp [harea] :
        (decide ((25001:ℚ)/250 ≤ (⟨1, 25001/2691, 0, 0⟩ : RawFeature).area_sqft)) = true)]
      simp [mkRecord, harea, hround]
    simp [processRecords, hfilter, sortBySqftDesc, List.insertionSort, ResultSet.buildings]
  · norm_num

/-- C3, amended: `totalBuildings` always equals the length of the
returned list, and the filter guarantee transfers to the *rounded*
stored value whenever `min_sqft` is an integer multiple of 0.01 (in
particular for every integer threshold); for other thresholds only the
pre-rounding area is guaranteed to be at least `min_sqft`. -/
theorem c3_count_and_filter (min_sqft : ℚ) (feats : List RawFeature) (k : ℤ)
    (b : Building) (hk : min_sqft = (k : ℚ) / 100)
    (hb : b ∈ (processRecords min_sqft feats).buildings) :
    (processRecords min_sqft feats).total =
      (processRecords min_sqft feats).buildings.length ∧
    min_sqft ≤ b.sqft := by
  constructor
  · rfl
  · have hb' : b ∈ mkRecords min_sqft feats := by
      have : b ∈ sortBySqftDesc (mkRecords min_sqft feats) := hb
      rwa [sortBySqftDesc, List.mem_insertionSort] at this
    rw [mkRecords] at hb'
    obtain ⟨f, hf, rfl⟩ := List.mem_map.mp hb'
    have hfa : min_sqft ≤ f.area_sqft := by
      have := List.of_mem_filter hf
      exact of_decide_eq_true this
    rw [hk] at hfa ⊢
    exact round2_ge_of_centi_le k _ hfa

/-- C3, witness: threshold 0 (= 0/100), one 250 m² feature whose record
carries sqft 2691 ≥ 0. -/
theorem c3_count_and_filter_witness :
    (processRecords 0 [⟨1, 250, 0, 0⟩]).total =
      (processRecords 0 [⟨1, 250, 0, 0⟩]).buildings.length ∧
    (0 : ℚ) ≤ (Building.mk 1 2691 0 0).sqft :=
  c3_count_and_filter 0 [⟨1, 250, 0, 0⟩] 0 ⟨1, 2691, 0, 0⟩
    (by simp)
    (by simp [processRecords_example, ResultSet.buildings])

/-! ## Claim C10: `use_cache=False` touches no cache state -/

/-- C10: with `use_cache=False` the call leaves the cache directory
exactly as it was (no file and no directory is written), and the
returned result is independent of the entire cache state (no cache file
is read) — for every outcome: success, empty, or error. -/
theorem c10_no_cache_io (fs fs2 : FileSystem) (reg : Registry)
    (behavior : String → AttemptResult) (now : Nat)
    (lon lat min_sqft radius : ℚ) (wid : Option Nat) :
    (get_buildings_by_size fs reg behavior now lon lat min_sqft radius false wid).fs = fs ∧
    (get_buildings_by_size fs reg behavior now lon lat min_sqft radius false wid).result =
      (get_buildings_by_size fs2 reg behavior now lon lat min_sqft radius false wid).result := by
  rw [gbbs_nocache, gbbs_nocache]
  exact ⟨live_query_fs_nocache _ _ _ _ _ _ _ _ _,
    live_query_result_ext fs fs2 _ _ _ _ _ _ _ _ _ _⟩

/-! ## Claim C8: corrupt fresh cache records are silent misses -/

/-- C8: if the cache holds a fresh (younger than 24 h) record for the
signature whose bytes fail to deserialize, the call performs a live
fetch and returns exactly what the cache-disabled call would return —
the corruption is swallowed, never surfaced to the caller. -/
theorem c8_corrupt_is_miss (fs : FileSystem) (reg : Registry)
    (behavior : String → AttemptResult) (now mt : Nat) (junk : String)
    (lon lat min_sqft radius : ℚ) (wid : Option Nat)
    (hentry : fs.lookup (lon, lat, radius, min_sqft) = some ⟨mt, .corrupt junk⟩)
    (hfresh : now - mt < 86400) :
    (get_buildings_by_size fs reg behavior now lon lat min_sqft radius true wid).didFetch
        = true ∧
    (get_buildings_by_size fs reg behavior now lon lat min_sqft radius true wid).result =
      (get_buildings_by_size fs reg behavior now lon lat min_sqft radius false wid).result := by
  have hmiss : freshCached fs (lon, lat, radius, min_sqft) now = none := by
    rw [freshCached, hentry]
    simp [hfresh]
  rw [gbbs_miss _ _ _ _ _ _ _ _ _ hmiss, gbbs_nocache]
  exact ⟨live_query_didFetch _ _ _ _ _ _ _ _ _ _,
    live_query_result_ext fs fs _ _ _ _ _ _ _ _ _ _⟩

/-- C8, witness: a corrupt record written at time 0, read at time 10,
for the signature of the example query. -/
theorem c8_corrupt_is_miss_witness :
    (get_buildings_by_size ⟨true, [((0, 0, 500, 0), ⟨0, .corrupt "xx"⟩)]⟩ Registry.init
        (fun _ => .ok []) 10 0 0 0 500 true none).didFetch = true ∧
    (get_buildings_by_size ⟨true, [((0, 0, 500, 0), ⟨0, .corrupt "xx"⟩)]⟩ Registry.init
        (fun _ => .ok []) 10 0 0 0 500 true none).result =
      (get_buildings_by_size ⟨true, [((0, 0, 500, 0), ⟨0, .corrupt "xx"⟩)]⟩ Registry.init
        (fun _ => .ok []) 10 0 0 0 500 false none).result :=
  c8_corrupt_is_miss ⟨true, [((0, 0, 500, 0), ⟨0, .corrupt "xx"⟩)]⟩ Registry.init
    (fun _ => .ok []) 10 0 "xx" 0 0 0 500 none (by decide) (by decide)

/-! ## Claim C2: what gets persisted to the cache -/

/-- C2, counterexample: an empty upstream response yields the non-error
result `{"total_buildings": 0, "buildings": []}` via the early return at
lines 167-169, *before* the cache write at lines 286-290 — a freshly
computed non-error ResultSet that is never persisted (the cache stays
empty), refuting the claim for this input. -/
theorem c2_cache_counterexample :
    (get_buildings_by_size ⟨false, []⟩ Registry.init (fun _ => .ok []) 0
        0 0 0 500 true none).didFetch = true ∧
    (get_buildings_by_size ⟨false, []⟩ Registry.init (fun _ => .ok []) 0
        0 0 0 500 true none).result = .ok 0 [] ∧
    (get_buildings_by_size ⟨false, []⟩ Registry.init (fun _ => .ok []) 0
        0 0 0 500 true none).fs = ⟨false, []⟩ := by
  decide

/-- C2, amended: on a cache miss with caching enabled, a result computed
through the full processing path (a nonempty feature list) is persisted
under the query signature — overwriting any prior record — before being
returned, and it is never an error; an error result leaves the cache
untouched; but the two empty-result short-circuits ("no matching
features" and an empty feature list) return without writing anything. -/
theorem c2_cache_write_policy (fs : FileSystem) (reg : Registry)
    (behavior : String → AttemptResult) (now : Nat)
    (lon lat min_sqft radius : ℚ) (wid : Option Nat)
    (hmiss : freshCached fs (lon, lat, radius, min_sqft) now = none) :
    (∀ feats, (with_endpoint_fallback reg wid behavior now).result = .ok feats → feats ≠ [] →
      (get_buildings_by_size fs reg behavior now lon lat min_sqft radius true wid).fs.lookup
          (lon, lat, radius, min_sqft) =
        some ⟨now, .good (get_buildings_by_size fs reg behavior now
          lon lat min_sqft radius true wid).result⟩ ∧
      (get_buildings_by_size fs reg behavior now
          lon lat min_sqft radius true wid).result.isError = false) ∧
    (∀ e, (with_endpoint_fallback reg wid behavior now).result = .error e →
        strContains e noMatchingMarker = false →
      (get_buildings_by_size fs reg behavior now lon lat min_sqft radius true wid).result
          = .error e ∧
      (get_buildings_by_size fs reg behavior now lon lat min_sqft radius true wid).fs = fs) ∧
    (∀ e, (with_endpoint_fallback reg wid behavior now).result = .error e →
        strContains e noMatchingMarker = true →
      (get_buildings_by_size fs reg behavior now lon lat min_sqft radius true wid).result
          = .ok 0 [] ∧
      (get_buildings_by_size fs reg behavior now lon lat min_sqft radius true wid).fs = fs) ∧
    (∀ feats, (with_endpoint_fallback reg wid behavior now).result = .ok feats → feats = [] →
      (get_buildings_by_size fs reg behavior now lon lat min_sqft radius true wid).result
          = .ok 0 [] ∧
      (get_buildings_by_size fs reg behavior now lon lat min_sqft radius true wid).fs = fs) := by
  rw [gbbs_miss _ _ _ _ _ _ _ _ _ hmiss]
  refine ⟨?_, ?_, ?_, ?_⟩
  · intro feats hok hne
    have hemp : feats.isEmpty = false := by
      cases feats with
      | nil => exact absurd rfl hne
      | cons a l => rfl
    simp [live_query, hok, hemp, lookup_write_self]
    rfl
  · intro e herr hmark
    simp [live_query, herr, hmark]
  · intro e herr hmark
    simp [live_query, herr, hmark]
  · intro feats hok hemp
    subst hemp
    simp [live_query, hok]

/-- C2, witness: a successful one-building fetch on an empty cache is
persisted under its signature with the write time, and is not an error. -/
theorem c2_cache_write_policy_witness :
    (get_buildings_by_size ⟨false, []⟩ Registry.init (fun _ => .ok [⟨1, 250, 0, 0⟩]) 10
        0 0 0 500 true none).fs.lookup (0, 0, 500, 0) =
      some ⟨10, .good (get_buildings_by_size ⟨false, []⟩ Registry.init
        (fun _ => .ok [⟨1, 250, 0, 0⟩]) 10 0 0 0 500 true none).result⟩ ∧
    (get_buildings_by_size ⟨false, []⟩ Registry.init (fun _ => .ok [⟨1, 250, 0, 0⟩]) 10
        0 0 0 500 true none).result.isError = false :=
  (c2_cache_write_policy ⟨false, []⟩ Registry.init (fun _ => .ok [⟨1, 250, 0, 0⟩]) 10
      0 0 0 500 none (by decide)).1 [⟨1, 250, 0, 0⟩] (by decide) (by decide)

/-! ## Claim C4: caching idempotence -/

/-- C4, counterexample: when the first call's fetch fails, its error
result is not cached, so an identical call ten seconds later performs a
second live fetch — two live fetches for two identical calls within
24 hours with caching enabled, refuting "at most one live upstream
fetch across the two calls" (the two results here are identical, so it
is the fetch-count conjunct that fails). -/
theorem c4_idempotence_counterexample :
    (get_buildings_by_size ⟨false, []⟩ Registry.init (fun _ => .err "boom") 10
        0 0 0 500 true none).didFetch = true ∧
    (get_buildings_by_size
        (get_buildings_by_size ⟨false, []⟩ Registry.init (fun _ => .err "boom") 10
          0 0 0 500 true none).fs
        Registry.init (fun _ => .err "boom") 20 0 0 0 500 true none).didFetch = true := by
  decide

/-- C4, amended: if the cache has no fresh readable record for the
signature and the first call's fetch succeeds with a nonempty feature
list, then a second call with identical parameters within 24 hours is
served from the cache: it returns the bit-identical ResultSet, performs
no live fetch (so exactly one fetch happens across the two calls), and
this holds whatever the upstream would answer the second time. -/
theorem c4_cache_idempotence (fs : FileSystem) (reg reg2 : Registry)
    (behavior behavior2 : String → AttemptResult) (t1 t2 : Nat)
    (lon lat min_sqft radius : ℚ) (wid wid2 : Option Nat) (feats : List RawFeature)
    (hmiss : freshCached fs (lon, lat, radius, min_sqft) t1 = none)
    (hok : (with_endpoint_fallback reg wid behavior t1).result = .ok feats)
    (hne : feats ≠ [])
    (hwin : t2 - t1 < 86400) :
    (get_buildings_by_size fs reg behavior t1 lon lat min_sqft radius true wid).didFetch
        = true ∧
    (get_buildings_by_size
        (get_buildings_by_size fs reg behavior t1 lon lat min_sqft radius true wid).fs
        reg2 behavior2 t2 lon lat min_sqft radius true wid2).didFetch = false ∧
    (get_buildings_by_size
        (get_buildings_by_size fs reg behavior t1 lon lat min_sqft radius true wid).fs
        reg2 behavior2 t2 lon lat min_sqft radius true wid2).result =
      (get_buildings_by_size fs reg behavior t1 lon lat min_sqft radius true wid).result := by
  have h1 := gbbs_success fs reg behavior t1 lon lat min_sqft radius wid feats hmiss hok hne
  have hhit : freshCached
      (get_buildings_by_size fs reg behavior t1 lon lat min_sqft radius true wid).fs
      (lon, lat, radius, min_sqft) t2 = some (processRecords min_sqft feats) := by
    rw [h1]
    rw [freshCached]
    rw [lookup_write_self]
    simp [hwin]
  rw [gbbs_hit _ _ _ _ _ _ _ _ _ _ hhit]
  rw [h1]
  exact ⟨rfl, rfl, rfl⟩

/-- C4, witness: empty cache, one-building fetch at t=10, identical call
at t=20 against an upstream that would now fail — still served from
cache with no second fetch. -/
theorem c4_cache_idempotence_witness :
    (get_buildings_by_size ⟨false, []⟩ Registry.init (fun _ => .ok [⟨1, 250, 0, 0⟩]) 10
        0 0 0 500 true none).didFetch = true ∧
    (get_buildings_by_size
        (get_buildings_by_size ⟨false, []⟩ Registry.init (fun _ => .ok [⟨1, 250, 0, 0⟩]) 10
          0 0 0 500 true none).fs
        Registry.init (fun _ => .err "down") 20 0 0 0 500 true none).didFetch = false ∧
    (get_buildings_by_size
        (get_buildings_by_size ⟨false, []⟩ Registry.init (fun _ => .ok [⟨1, 250, 0, 0⟩]) 10
          0 0 0 500 true none).fs
        Registry.init (fun _ => .err "down") 20 0 0 0 500 true none).result =
      (get_buildings_by_size ⟨false, []⟩ Registry.init (fun _ => .ok [⟨1, 250, 0, 0⟩]) 10
        0 0 0 500 true none).result :=
  c4_cache_idempotence ⟨false, []⟩ Registry.init Registry.init
    (fun _ => .ok [⟨1, 250, 0, 0⟩]) (fun _ => .err "down") 10 20
    0 0 0 500 none none [⟨1, 250, 0, 0⟩] (by decide) (by decide) (by decide) (by decide)

/-! ## Claim C9: when the last-used timestamp is recorded -/

/-- C9, counterexample: the selection operation itself
(`get_overpass_endpoint`, lines 31-55) records nothing — from the
initial state it selects the default endpoint and returns the registry
completely unchanged, every last-used timestamp included; so selection
does not "record the selected endpoint's last-used timestamp as part of
selection". -/
theorem c9_selection_counterexample :
    (get_overpass_endpoint Registry.init none).1 = epDE ∧
    (get_overpass_endpoint Registry.init none).2 = Registry.init ∧
    lastUsedOf (get_overpass_endpoint Registry.init none).2 epDE = 0 := by
  decide

/-- C9, amended: the timestamp write lives in the fallback wrapper, not
in the selection function: `with_endpoint_fallback` stamps the current
time on every endpoint it actually attempts — immediately upon
selecting it for the attempt, before the request's success or failure
can matter — and leaves the last-used timestamp of every endpoint it
does not attempt unchanged. -/
theorem c9_mark_on_attempt (reg : Registry) (wid : Option Nat)
    (behavior : String → AttemptResult) (now : Nat) (ep : String) :
    (ep ∈ (with_endpoint_fallback reg wid behavior now).attempted →
      lastUsedOf (with_endpoint_fallback reg wid behavior now).reg ep = now) ∧
    (ep ∉ (with_endpoint_fallback reg wid behavior now).attempted →
      lastUsedOf (with_endpoint_fallback reg wid behavior now).reg ep = lastUsedOf reg ep) := by
  simp only [with_endpoint_fallback]
  obtain ⟨h1, h2⟩ := tryEndpoints_lastUsed behavior now
    ((get_overpass_endpoint reg wid).1 ::
      OVERPASS_ENDPOINTS.filter (fun e => e ≠ (get_overpass_endpoint reg wid).1))
    (get_overpass_endpoint reg wid).2 []
  constructor
  · intro hmem
    exact h1 ep hmem
  · intro hmem
    rw [h2 ep hmem]
    exact lastUsedOf_get_overpass_endpoint reg wid ep

/-- C9, witness: both endpoints fail at time 5, so both are attempted
and stamped with 5, while an unconfigured URL keeps its default 0. -/
theorem c9_mark_on_attempt_witness :
    lastUsedOf (with_endpoint_fallback Registry.init none (fun _ => .err "x") 5).reg epDE = 5 ∧
    lastUsedOf (with_endpoint_fallback Registry.init none (fun _ => .err "x") 5).reg "other"
      = lastUsedOf Registry.init "other" :=
  ⟨(c9_mark_on_attempt Registry.init none (fun _ => .err "x") 5 epDE).1 (by decide),
   (c9_mark_on_attempt Registry.init none (fun _ => .err "x") 5 "other").2 (by decide)⟩

/-! ## Claim C1: "no matching features" and endpoint fallback -/

/-- Scenario behavior for the C1 counterexample: the default endpoint
raises the no-matching-features exception, the alternative endpoint
returns one 250 m² building. -/
def noMatchThenOk : String → AttemptResult := fun ep =>
  if ep = epDE then .err "No matching features" else .ok [⟨1, 250, 0, 0⟩]

/-- C1, counterexample: a "no matching features" failure on the first
endpoint does NOT short-circuit the fetch — the wrapper's loop
(lines 71-96) catches it like any other exception and tries the next
endpoint, whose one building is then returned; the fetch attempts both
endpoints and does not return the empty result, refuting "immediately
returns an explicit empty result without attempting any further
endpoints". -/
theorem c1_short_circuit_counterexample :
    (get_buildings_by_size ⟨false, []⟩ Registry.init noMatchThenOk 0
        0 0 0 500 false none).attempted = [epDE, epCoffee] ∧
    (get_buildings_by_size ⟨false, []⟩ Registry.init noMatchThenOk 0
        0 0 0 500 false none).result = .ok 1 [⟨1, 2691, 0, 0⟩] ∧
    (get_buildings_by_size ⟨false, []⟩ Registry.init noMatchThenOk 0
        0 0 0 500 false none).result ≠ .ok 0 [] := by
  have hres : (with_endpoint_fallback Registry.init none noMatchThenOk 0).result
      = .ok [⟨1, 250, 0, 0⟩] := by decide
  have hatt : (with_endpoint_fallback Registry.init none noMatchThenOk 0).attempted
      = [epDE, epCoffee] := by decide
  rw [gbbs_nocache]
  refine ⟨?_, ?_, ?_⟩
  · simp [live_query, hres, hatt]
  · simp [live_query, hres, processRecords_example]
  · simp [live_query, hres, processRecords_example]

/-- C1, amended: the no-matching-features handling happens only *after*
endpoint fallback is exhausted: when every (healthy) endpoint fails and
the failure messages indicate "No matching features", the raised
aggregate contains the marker, and `get_buildings_by_size` then returns
the explicit empty result — a valid outcome, not an error — having
attempted both configured endpoints. -/
theorem c1_no_matching_after_fallback (reg : Registry) (fs : FileSystem)
    (msg : String → String) (now : Nat) (lon lat min_sqft radius : ℚ)
    (h1 : statusOf reg epDE = true) (h2 : statusOf reg epCoffee = true)
    (hm1 : strContains (msg epDE) noMatchingMarker = true)
    (hm2 : strContains (msg epCoffee) noMatchingMarker = true) :
    (get_buildings_by_size fs reg (fun ep => .err (msg ep)) now
        lon lat min_sqft radius false none).result = .ok 0 [] ∧
    (get_buildings_by_size fs reg (fun ep => .err (msg ep)) now
        lon lat min_sqft radius false none).attempted.length = 2 := by
  obtain ⟨p, o, hpo, hres, hatt⟩ := with_endpoint_fallback_two_fail reg msg now h1 h2
  have hcontains : strContains (aggMsg [(p, msg p), (o, msg o)]) noMatchingMarker = true := by
    rcases hpo with ⟨hp, ho⟩ | ⟨hp, ho⟩ <;> subst hp <;> subst ho
    · exact strContains_aggMsg_two _ _ _ _ _ hm1
    · exact strContains_aggMsg_two _ _ _ _ _ hm2
  rw [gbbs_nocache]
  constructor
  · simp [live_query, hres, hcontains]
  · simp [live_query, hres, hcontains, hatt]

/-- C1, witness: both endpoints healthy and both reporting
"No matching features" — the query returns the explicit empty result
after attempting two endpoints. -/
theorem c1_no_matching_after_fallback_witness :
    (get_buildings_by_size ⟨false, []⟩ Registry.init
        (fun ep => .err ((fun _ => "No matching features") ep)) 0
        0 0 0 500 false none).result = .ok 0 [] ∧
    (get_buildings_by_size ⟨false, []⟩ Registry.init
        (fun ep => .err ((fun _ => "No matching features") ep)) 0
        0 0 0 500 false none).attempted.length = 2 :=
  c1_no_matching_after_fallback Registry.init ⟨false, []⟩
    (fun _ => "No matching features") 0 0 0 0 500
    (by decide) (by decide) (by decide) (by decide)
